import Mathlib

/-!
Shallow embedding of the bctw bulk-import module (`import/csv.ts`): the
row-level validation engine (`checkGenericErrors`, `requireFields`,
`verifyAssignment`, `checkAnimalDeviceErrorsAndWarns`, the per-row body of
`parseXlsx`) and the staged bulk-upsert orchestrator (`handleBulkMetadata`,
`handleCollarCritterLink`).

Conventions of the embedding:
* Spreadsheet cell values are `CellVal` (string / number / date); JavaScript
  values that may additionally be `null` or `undefined` are `JsVal`.
* A row object is an insertion-ordered association list `Row`; JavaScript
  object-key iteration order is the list order, and object keys are unique.
* Timestamps are integers; the textual `YYYY-MM-DD` rendering of a
  normalized date is abstracted as the `date` constructor carrying the
  same timestamp (the truncation itself is external `dayjs` behaviour).
* Database and promise effects are passed in as explicit oracle arguments
  (fetched assignment histories, the `is_new_animal` answer, the per-row
  link-call outcome), exactly the data whose round trip the source awaits.
* The completion order of the concurrent phase-3 tasks is an explicit
  permutation argument `order`; `Promise.allSettled` itself preserves the
  input order of the task array, which the embedding keeps.
-/

/-- A spreadsheet cell value after parsing: string, number, or date
(timestamps as integers). -/
inductive CellVal where
  | str (s : String)
  | num (n : Int)
  | date (d : Int)
deriving DecidableEq, Repr

/-- A JavaScript value as seen by the import code: a cell value, `null`,
or `undefined`. -/
inductive JsVal where
  | val (v : CellVal)
  | null
  | undefined
deriving DecidableEq, Repr

/-- A row object: insertion-ordered mapping from column name to cell value.
Keys are unique, as in a JavaScript object. -/
abbrev Row := List (String × CellVal)

/-- Property lookup `row[k]` on a row object. -/
def fieldVal (row : Row) (k : String) : Option CellVal :=
  (row.find? (fun kv => kv.1 == k)).map (·.2)

/-- Property lookup returning `undefined` for an absent key, as JavaScript
does. -/
def fieldValJs (row : Row) (k : String) : JsVal :=
  match fieldVal row k with
  | some v => JsVal.val v
  | none => JsVal.undefined

/-- JavaScript truthiness of a cell value: empty string and 0 are falsy. -/
def truthyCell : CellVal → Bool
  | CellVal.str s => !(s == "")
  | CellVal.num n => !(n == 0)
  | CellVal.date _ => true

/-- JavaScript truthiness: `null` and `undefined` are falsy. -/
def truthyJs : JsVal → Bool
  | JsVal.val v => truthyCell v
  | JsVal.null => false
  | JsVal.undefined => false

/-- JavaScript strict equality `===` on the modelled values. -/
def jsStrictEq : JsVal → JsVal → Bool
  | JsVal.val a, JsVal.val b => a == b
  | JsVal.null, JsVal.null => true
  | JsVal.undefined, JsVal.undefined => true
  | _, _ => false

/-- JavaScript nullish coalescing `a ?? b`. -/
def jsNullish : JsVal → JsVal → JsVal
  | JsVal.null, b => b
  | JsVal.undefined, b => b
  | a, _ => a

/-- String rendering of a cell value, used for `toString()` calls and
template-literal interpolation. -/
def cellToString : CellVal → String
  | CellVal.str s => s
  | CellVal.num n => toString n
  | CellVal.date d => toString d

/-- Template-literal rendering of a JavaScript value (`undefined` and `null`
print as their names). -/
def displayJs : JsVal → String
  | JsVal.val v => cellToString v
  | JsVal.null => "null"
  | JsVal.undefined => "undefined"

/-- `CellErrorDescriptor` from the source: description, remediation help,
optional list of valid values. -/
structure CellErrorDescriptor where
  desc : String
  help : String
  valid_values : Option (List String) := none
deriving DecidableEq, Repr

/-- `ParsedXLSXCellError`: mapping error-key → descriptor, kept as an
insertion-ordered association list with unique keys. -/
abbrev CellErrors := List (String × CellErrorDescriptor)

/-- `WarningInfo` from the source. -/
structure WarningInfo where
  message : String
  prompt : Bool
deriving DecidableEq, Repr

/-- `ErrorsAndWarnings` from the source. -/
structure ErrorsAndWarnings where
  errors : CellErrors
  warnings : List WarningInfo
deriving DecidableEq, Repr

/-- `ParsedXLSXRowResult` from the source. -/
structure ParsedXLSXRowResult where
  row : Row
  errors : CellErrors
  warnings : List WarningInfo
  success : Bool
deriving DecidableEq, Repr

/-- `ParsedXLSXSheetResult` from the source. -/
structure ParsedXLSXSheetResult where
  headers : List String
  rows : List ParsedXLSXRowResult
deriving DecidableEq, Repr

/-- Column types as computed by `obtainColumnTypes` from the database
schema: `number`, `date`, `boolean`, or `string`. -/
inductive ColType where
  | number
  | date
  | boolean
  | string
deriving DecidableEq, Repr

/-- Modelled from the spec: `removeEmptyProps` lives in `import_helpers`,
which is not among the provided sources. The spec (§4.2) says
"Absent/empty fields are dropped before checking (missing optional field
≠ error)", so empty-string cells are removed and all other present cells
kept. -/
def removeEmptyProps (row : Row) : Row :=
  row.filter (fun kv =>
    match kv.2 with
    | CellVal.str s => !(s == "")
    | _ => true)

/-- The code-field error descriptor built by `checkGenericErrors`, carrying
the full fetched domain list as `valid_values`. -/
def codeFieldErrorDesc (valid : List String) : CellErrorDescriptor :=
  { desc := "This value is not a valid code for this field.",
    help := "This field must contain a value from the list of acceptable values.",
    valid_values := some valid }

/-- The date-format error descriptor built by `checkGenericErrors`. -/
def dateFieldErrorDesc : CellErrorDescriptor :=
  { desc := "This field must be a valid date format.",
    help := "You have incorrectly formatted this date field. One way you can ensure correct formatting for a cell of this type is to change the Number Format dropdown in Excel." }

/-- The numeric-type error descriptor built by `checkGenericErrors`. -/
def numberFieldErrorDesc : CellErrorDescriptor :=
  { desc := "This field must be a numeric value.",
    help := "This field is set to only accept numbers, including integers and floating points. Ensure you have not included any special characters." }

/-- The boolean-type error descriptor built by `checkGenericErrors`. -/
def booleanFieldErrorDesc : CellErrorDescriptor :=
  { desc := "Set this field to either TRUE or FALSE.", help := "" }

/-- JavaScript `Array.includes` of a cell value in a list of code
descriptions (strict equality: a non-string cell never matches). -/
def cellInStrings (v : CellVal) (l : List String) : Bool :=
  match v with
  | CellVal.str s => l.contains s
  | _ => false

/-- One iteration of the `checkGenericErrors` loop for a single key/value
pair: code-field membership first, then the declared column type. Returns
the error descriptor stored at `errors[key]`, if any. `codeDomain` is the
oracle for the per-field `get_code` query. -/
def checkGenericErrorForCell (codeFields : List String)
    (codeDomain : String → List String) (columnTypes : String → Option ColType)
    (k : String) (v : CellVal) : Option CellErrorDescriptor :=
  if codeFields.contains k then
    if cellInStrings v (codeDomain k) then none
    else some (codeFieldErrorDesc (codeDomain k))
  else
    match columnTypes k with
    | some ColType.date =>
        match v with
        | CellVal.date _ => none
        | _ => some dateFieldErrorDesc
    | some ColType.number =>
        match v with
        | CellVal.num _ => none
        | _ => some numberFieldErrorDesc
    | some ColType.boolean =>
        if v == CellVal.str "TRUE" || v == CellVal.str "FALSE" then none
        else some booleanFieldErrorDesc
    | _ => none

/-- `checkGenericErrors` from the source: iterate the row's keys in order,
recording at most one error per key (row keys are unique). -/
def checkGenericErrors (row : Row) (codeFields : List String)
    (codeDomain : String → List String)
    (columnTypes : String → Option ColType) : CellErrors :=
  row.filterMap (fun kv =>
    (checkGenericErrorForCell codeFields codeDomain columnTypes kv.1 kv.2).map
      (fun e => (kv.1, e)))

/-- `requireFields` from the source: `row.species && row.device_id`
(JavaScript truthiness). -/
def requireFields (row : Row) : Bool :=
  truthyJs (fieldValJs row "species") && truthyJs (fieldValJs row "device_id")

/-- An assignment-history interval as returned by the
`get_device_assignment_history` / `get_animal_collar_assignment_history`
queries; a missing `attachment_end` means an ongoing attachment. -/
structure AssignmentInterval where
  attachment_start : Int
  attachment_end : Option Int
deriving DecidableEq, Repr

/-- Modelled from the spec: `dateRangesOverlap` lives in `import_helpers`,
which is not among the provided sources. The spec (§3) overlap rule:
intervals A and B overlap iff `A.start < (B.end or +inf) AND
B.start < (A.end or +inf)` with half-open semantics and a null end
meaning open-ended. -/
def dateRangesOverlap (aStart : Int) (aEnd : Option Int)
    (bStart : Int) (bEnd : Option Int) : Bool :=
  (match bEnd with
   | none => true
   | some e => aStart < e) &&
  (match aEnd with
   | none => true
   | some e => bStart < e)

/-- Read a row field as a (normalized) date value. -/
def dateField (row : Row) (k : String) : Option Int :=
  match fieldVal row k with
  | some (CellVal.date d) => some d
  | _ => none

/-- The candidate interval start built by `verifyAssignment`:
`row.capture_date ?? new Date()`. -/
def rowStart (row : Row) (now : Int) : Int :=
  (dateField row "capture_date").getD now

/-- The candidate interval end built by `verifyAssignment`:
`row.retrieval_date ?? row.mortality_date ?? null`. -/
def rowEnd (row : Row) : Option Int :=
  match dateField row "retrieval_date" with
  | some d => some d
  | none => dateField row "mortality_date"

/-- The overlap test `verifyAssignment` applies to each fetched history
interval: `dateRangesOverlap(link.attachment_start, link.attachment_end,
row_start, row_end)`. -/
def overlapsCandidate (row : Row) (now : Int) (l : AssignmentInterval) : Bool :=
  dateRangesOverlap l.attachment_start l.attachment_end (rowStart row now) (rowEnd row)

/-- The hard error `verifyAssignment` records on `device_id` when the
candidate interval overlaps the device's assignment history. -/
def deviceAssignedErrorDesc : CellErrorDescriptor :=
  { desc := "This device is already assigned to an animal. Unlink this device and try again.",
    help := "This device is already assigned to an animal. Unlink this device and try again." }

/-- The non-blocking warning `verifyAssignment` pushes when the device has
(non-overlapping) deployment history. -/
def previousDeploymentsWarning (row : Row) : WarningInfo :=
  { message := "There are previous deployments for device ID " ++ displayJs (fieldValJs row "device_id"),
    prompt := false }

/-- The confirmable warning `verifyAssignment` pushes when the referenced
animal's attachment history overlaps the candidate interval. -/
def multipleDevicesWarning : WarningInfo :=
  { message := "You will be attaching multiple devices to this animal over the same time span.",
    prompt := true }

/-- `verifyAssignment` from the source. `deviceLinks` is the oracle result
of `get_device_assignment_history` for the row's device; `animalLinks` the
result of `get_animal_collar_assignment_history` for the row's
`critter_id` (consulted only when `critter_id` is truthy). -/
def verifyAssignment (row : Row) (now : Int)
    (deviceLinks animalLinks : List AssignmentInterval) : ErrorsAndWarnings :=
  let linkData : ErrorsAndWarnings :=
    if deviceLinks.any (overlapsCandidate row now) then
      { errors := [("device_id", deviceAssignedErrorDesc)], warnings := [] }
    else if decide (deviceLinks.length > 0) then
      { errors := [], warnings := [previousDeploymentsWarning row] }
    else
      { errors := [], warnings := [] }
  if truthyJs (fieldValJs row "critter_id") then
    if animalLinks.any (overlapsCandidate row now) then
      { linkData with warnings := linkData.warnings ++ [multipleDevicesWarning] }
    else linkData
  else linkData

/-- The single error `checkAnimalDeviceErrorsAndWarns` records when the
structurally required fields are missing. -/
def missingDataErrorDesc : CellErrorDescriptor :=
  { desc := "You have not provided sufficient data.",
    help := "You have not provided sufficient data." }

/-- The prompt warning pushed when `is_new_animal` reports the row will
create a new animal. -/
def newAnimalWarning : WarningInfo :=
  { message := "This row will create a new animal.", prompt := true }

/-- `checkAnimalDeviceErrorsAndWarns` from the source. `is_new` is the
oracle answer of the `is_new_animal` query for this row. -/
def checkAnimalDeviceErrorsAndWarns (rowres : ParsedXLSXRowResult) (now : Int)
    (deviceLinks animalLinks : List AssignmentInterval)
    (is_new : Bool) : ErrorsAndWarnings :=
  if requireFields rowres.row == false then
    { errors := [("missing_data", missingDataErrorDesc)], warnings := [] }
  else
    let ret := verifyAssignment rowres.row now deviceLinks animalLinks
    if is_new then
      { ret with warnings := ret.warnings ++ [newAnimalWarning] }
    else ret

/-- `new Date(value)` in JavaScript: an existing date stays, a number is a
timestamp, a string goes through date parsing (`parseDate` is the oracle
for the JavaScript date parser; `none` is an Invalid Date). -/
def jsNewDate (parseDate : String → Option Int) : CellVal → Option Int
  | CellVal.date d => some d
  | CellVal.num n => some n
  | CellVal.str s => parseDate s

/-- The date-normalization loop in `parseXlsx`: every date-typed column of
the row is replaced by `new Date(v).toISOString().split('T')[0]`.
`toISOString` throws a RangeError on an Invalid Date, which escapes the
row loop; this is modelled by `Except.error`. -/
def normalizeDates (parseDate : String → Option Int)
    (columnTypes : String → Option ColType) (row : Row) :
    Except String Row :=
  row.mapM (fun kv =>
    if columnTypes kv.1 == some ColType.date then
      match jsNewDate parseDate kv.2 with
      | some d => Except.ok (kv.1, CellVal.date d)
      | none => Except.error "RangeError: Invalid time value"
    else Except.ok kv)

/-- JavaScript object spread `{...a, ...b}` on association lists: keys of
`a` in place (with `b`'s value when the key is also in `b`), then the keys
of `b` not in `a`. -/
def spreadMerge (a b : CellErrors) : CellErrors :=
  a.map (fun kv =>
    match b.find? (fun kv2 => kv2.1 == kv.1) with
    | some kv2 => (kv.1, kv2.2)
    | none => kv) ++
  b.filter (fun kv2 => !(a.any (fun kv => kv.1 == kv2.1)))

/-- The per-row body of the `parseXlsx` worksheet loop (after the header
check): drop empty cells, run `checkGenericErrors`, normalize date
columns (which can throw), then for the Device Metadata sheet merge in
`checkAnimalDeviceErrorsAndWarns`, and finally set
`success = (error keys are empty)`. -/
def processRow (codeFields : List String) (codeDomain : String → List String)
    (columnTypes : String → Option ColType) (parseDate : String → Option Int)
    (now : Int) (deviceLinks animalLinks : List AssignmentInterval)
    (is_new : Bool) (isDeviceSheet : Bool) (rowWithHeader : Row) :
    Except String ParsedXLSXRowResult :=
  let crow := removeEmptyProps rowWithHeader
  let errors := checkGenericErrors crow codeFields codeDomain columnTypes
  match normalizeDates parseDate columnTypes crow with
  | Except.error e => Except.error e
  | Except.ok nrow =>
    if isDeviceSheet then
      let ew := checkAnimalDeviceErrorsAndWarns
        { row := nrow, errors := errors, warnings := [], success := false }
        now deviceLinks animalLinks is_new
      let merged := spreadMerge errors ew.errors
      Except.ok { row := nrow, errors := merged, warnings := ew.warnings,
                  success := merged.isEmpty }
    else
      Except.ok { row := nrow, errors := errors, warnings := [],
                  success := errors.isEmpty }

/-- One worksheet of the uploaded workbook, as handed to the row loop of
`parseXlsx`: its header list, whether it is the Device Metadata sheet, and
its data rows. The history/uniqueness oracles are per-row functions. -/
structure SheetInput where
  headers : List String
  isDeviceSheet : Bool
  rows : List Row
deriving Repr

/-- The row loop of `parseXlsx` over one worksheet; the first thrown
RangeError aborts the whole sheet. -/
def processSheet (codeFields : List String) (codeDomain : String → List String)
    (columnTypes : String → Option ColType) (parseDate : String → Option Int)
    (now : Int) (deviceLinksOf animalLinksOf : Row → List AssignmentInterval)
    (isNewOf : Row → Bool) (sheet : SheetInput) :
    Except String (List ParsedXLSXRowResult) :=
  sheet.rows.mapM (fun r =>
    processRow codeFields codeDomain columnTypes parseDate now
      (deviceLinksOf r) (animalLinksOf r) (isNewOf r) sheet.isDeviceSheet r)

/-- The sheet loop of `parseXlsx` with its surrounding try/catch: sheets
are processed in order and pushed to `sheetResults`; the first exception
is caught and whatever has been accumulated so far is returned to the
callback (rows of the failing sheet are lost). -/
def parseXlsx (codeFields : List String) (codeDomain : String → List String)
    (columnTypes : String → Option ColType) (parseDate : String → Option Int)
    (now : Int) (deviceLinksOf animalLinksOf : Row → List AssignmentInterval)
    (isNewOf : Row → Bool) :
    List SheetInput → List ParsedXLSXSheetResult
  | [] => []
  | sheet :: rest =>
    match processSheet codeFields codeDomain columnTypes parseDate now
        deviceLinksOf animalLinksOf isNewOf sheet with
    | Except.ok rs =>
        { headers := sheet.headers, rows := rs } ::
          parseXlsx codeFields codeDomain columnTypes parseDate now
            deviceLinksOf animalLinksOf isNewOf rest
    | Except.error _ => []

/-- An upserted animal record as returned by the ANIMAL phase
(`upsertBulk(..., 'animal')`), with the fields `handleCollarCritterLink`
reads. -/
structure Animal where
  critter_id : String
  animal_id : JsVal
  wlh_id : JsVal
  capture_date : Option Int
  mortality_date : Option Int
deriving DecidableEq, Repr

/-- An upserted collar record as returned by the DEVICE phase
(`upsertBulk(..., 'device')`), with the fields `handleCollarCritterLink`
reads. -/
structure Collar where
  collar_id : String
  device_id : CellVal
deriving DecidableEq, Repr

/-- An entry of `IBulkResponse.errors`: 0-based row number, CSV copy of the
offending row, and the error text. -/
structure BulkRowError where
  rownum : Nat
  row : String
  error : String
deriving DecidableEq, Repr

/-- An entry of `IBulkResponse.results`. The source pushes heterogeneous
objects: upserted collar/animal records, `{success: ...}` phase messages
from `handleBulkMetadata`, and the `{sucess: ...}` (sic) attachment
messages from `handleCollarCritterLink`. -/
inductive SuccessRecord where
  | collarRec (c : Collar)
  | animalRec (a : Animal)
  | successMsg (s : String)
  | sucessMsg (s : String)
deriving DecidableEq, Repr

/-- `IBulkResponse` from the source. -/
structure IBulkResponse where
  errors : List BulkRowError
  results : List SuccessRecord
deriving DecidableEq, Repr

/-- Modelled from the spec: `rowToCsv` lives in `import_helpers`, which is
not among the provided sources. The spec (§4.6) says every error entry
carries "a denormalized copy of the offending row"; the copy is rendered
as one comma-separated line of the row's cell values. -/
def rowToCsv (row : Row) : String :=
  String.intercalate "," (row.map (fun kv => cellToString kv.2))

/-- `ICrittersWithDevices`: a batch row paired with its 0-based index,
kept for every row whose `device_id` is truthy. -/
structure CritterWithDevice where
  rowIndex : Nat
  row : Row
deriving DecidableEq, Repr

/-- The `animal?.animal_id ?? animal.wlh_id` identifier used in phase-3
messages. -/
def animalIdentifier (row : Row) : JsVal :=
  jsNullish (fieldValJs row "animal_id") (fieldValJs row "wlh_id")

/-- `critterResults.find(cr => cr.animal_id === row.animal_id)` from
`handleCollarCritterLink`: first upserted animal whose `animal_id` is
strictly equal to the row's. -/
def findSavedCritter (critterResults : List Animal) (row : Row) : Option Animal :=
  critterResults.find? (fun cr => jsStrictEq cr.animal_id (fieldValJs row "animal_id"))

/-- `collarResults.find(dr => dr.device_id.toString() ===
row.device_id.toString())` from `handleCollarCritterLink`. (Rows reaching
this code always carry a truthy `device_id`; for them `displayJs` agrees
with JavaScript `toString()`.) -/
def findMatchingCollar (collarResults : List Collar) (row : Row) : Option Collar :=
  collarResults.find? (fun dr =>
    cellToString dr.device_id == displayJs (fieldValJs row "device_id"))

/-- The settled outcome of one phase-3 link query: the promise fulfills or
rejects with a reason. -/
inductive LinkOutcome where
  | fulfilled
  | rejected (reason : String)
deriving DecidableEq, Repr

/-- What one phase-3 task does for its row: no matching upserted animal
(fulfills doing nothing), no matching upserted collar (pushes an error
mid-flight, then fulfills), or the actual link query with its settled
outcome. `linkOutcome` is the oracle for the `pg_link_collar_fn` call,
keyed by the row's index. -/
inductive TaskStep where
  | noCritter
  | noCollar
  | link (outcome : LinkOutcome)
deriving DecidableEq, Repr

/-- Classify the phase-3 task of one row. -/
def taskStep (critterResults : List Animal) (collarResults : List Collar)
    (linkOutcome : Nat → LinkOutcome) (c : CritterWithDevice) : TaskStep :=
  match findSavedCritter critterResults c.row with
  | none => TaskStep.noCritter
  | some _ =>
    match findMatchingCollar collarResults c.row with
    | none => TaskStep.noCollar
    | some _ => TaskStep.link (linkOutcome c.rowIndex)

/-- The error `handleCollarCritterLink` pushes mid-flight when the collar
record cannot be found. -/
def noCollarError (c : CritterWithDevice) : BulkRowError :=
  { rownum := c.rowIndex,
    row := rowToCsv c.row,
    error := "unable to find matching collar with device ID " ++ displayJs (fieldValJs c.row "device_id") }

/-- The errors pushed onto `bulkResp.errors` while the phase-3 tasks are in
flight, in task completion order: `order` lists the indices of
`crittersWithCollars` in the order the tasks ran. -/
def midErrors (critterResults : List Animal) (collarResults : List Collar)
    (linkOutcome : Nat → LinkOutcome) (rows : List CritterWithDevice)
    (order : List Nat) : List BulkRowError :=
  order.filterMap (fun i =>
    match rows[i]? with
    | some c =>
      match taskStep critterResults collarResults linkOutcome c with
      | TaskStep.noCollar => some (noCollarError c)
      | _ => none
    | none => none)

/-- The settled status `Promise.allSettled` reports for one row's task: a
task rejects only when the link query itself rejects. -/
def settledOutcome (critterResults : List Animal) (collarResults : List Collar)
    (linkOutcome : Nat → LinkOutcome) (c : CritterWithDevice) : LinkOutcome :=
  match taskStep critterResults collarResults linkOutcome c with
  | TaskStep.link (LinkOutcome.rejected r) => LinkOutcome.rejected r
  | _ => LinkOutcome.fulfilled

/-- The `{sucess: ...}` entry pushed for every fulfilled phase-3 task. -/
def attachSuccessEntry (c : CritterWithDevice) : SuccessRecord :=
  SuccessRecord.sucessMsg
    (displayJs (animalIdentifier c.row) ++ " successfully attached to " ++ displayJs (fieldValJs c.row "device_id"))

/-- The error entry pushed for every rejected phase-3 task. -/
def rejectedError (c : CritterWithDevice) (reason : String) : BulkRowError :=
  { rownum := c.rowIndex,
    error := "Animal ID " ++ displayJs (animalIdentifier c.row) ++ " " ++ reason,
    row := rowToCsv c.row }

/-- The `.then` handler after `Promise.allSettled`: walk the settled values
in task-array order, pushing an error for each rejected task and a
`{sucess: ...}` entry for each fulfilled one. -/
def postSettle (critterResults : List Animal) (collarResults : List Collar)
    (linkOutcome : Nat → LinkOutcome) (rows : List CritterWithDevice)
    (resp : IBulkResponse) : IBulkResponse :=
  rows.foldl (fun acc c =>
    match settledOutcome critterResults collarResults linkOutcome c with
    | LinkOutcome.rejected r => { acc with errors := acc.errors ++ [rejectedError c r] }
    | LinkOutcome.fulfilled => { acc with results := acc.results ++ [attachSuccessEntry c] })
    resp

/-- `handleCollarCritterLink` from the source: the mid-flight errors land
on `bulkResp` in completion order (`order`), then the settled values are
folded in task-array order. -/
def handleCollarCritterLink (critterResults : List Animal)
    (collarResults : List Collar) (linkOutcome : Nat → LinkOutcome)
    (rows : List CritterWithDevice) (order : List Nat)
    (bulkResp : IBulkResponse) : IBulkResponse :=
  postSettle critterResults collarResults linkOutcome rows
    { bulkResp with
      errors := bulkResp.errors ++ midErrors critterResults collarResults linkOutcome rows order }

/-- The result of `upsertBulk(username, rows, 'device')`. -/
structure CollarPhaseResult where
  errors : List BulkRowError
  results : List Collar
deriving DecidableEq, Repr

/-- The result of `upsertBulk(username, rows, 'animal')`. -/
structure AnimalPhaseResult where
  errors : List BulkRowError
  results : List Animal
deriving DecidableEq, Repr

/-- The DEVICE-phase result viewed as the `IBulkResponse` the orchestrator
returns verbatim on phase-1 failure. -/
def collarPhaseToBulk (r : CollarPhaseResult) : IBulkResponse :=
  { errors := r.errors, results := r.results.map SuccessRecord.collarRec }

/-- The ANIMAL-phase result viewed as the `IBulkResponse` the orchestrator
returns verbatim on phase-2 failure. -/
def animalPhaseToBulk (r : AnimalPhaseResult) : IBulkResponse :=
  { errors := r.errors, results := r.results.map SuccessRecord.animalRec }

/-- `rows.map((row, idx) => ({rowIndex: idx, row})).filter(r =>
r.row.device_id)` from `handleBulkMetadata`. -/
def animalsWithDevices (rows : List Row) : List CritterWithDevice :=
  (rows.enum.map (fun p => { rowIndex := p.1, row := p.2 : CritterWithDevice })).filter
    (fun c => truthyJs (fieldValJs c.row "device_id"))

/-- The outcome of one `handleBulkMetadata` run: the returned
`IBulkResponse` plus whether control flow reached the ANIMAL upsert and
the attachment phase. -/
structure BulkMetadataOutcome where
  response : IBulkResponse
  animalPhaseRan : Bool
  attachPhaseRan : Bool
deriving DecidableEq, Repr

/-- `handleBulkMetadata` from the source: three-phase orchestrator.
`collarResults` / `animalResults` are the oracle results of the two
`upsertBulk` calls; phase 2 is consulted only when phase 1 had no errors,
and `handleCollarCritterLink` only when both phases had none and some row
carries a device. -/
def handleBulkMetadata (rows : List Row) (collarResults : CollarPhaseResult)
    (animalResults : AnimalPhaseResult) (linkOutcome : Nat → LinkOutcome)
    (order : List Nat) : BulkMetadataOutcome :=
  let awd := animalsWithDevices rows
  if !(collarResults.errors.length == 0) then
    { response := collarPhaseToBulk collarResults,
      animalPhaseRan := false, attachPhaseRan := false }
  else
    let ret1 : IBulkResponse :=
      { errors := [],
        results := [SuccessRecord.successMsg
          (toString collarResults.results.length ++ " devices were successfully added")] }
    if !(animalResults.errors.length == 0) then
      { response := animalPhaseToBulk animalResults,
        animalPhaseRan := true, attachPhaseRan := false }
    else
      let ret2 : IBulkResponse :=
        { ret1 with
          results := ret1.results ++ [SuccessRecord.successMsg
            (toString animalResults.results.length ++ " animals were successfully added")] }
      if !(awd.length == 0) then
        { response := handleCollarCritterLink animalResults.results
            collarResults.results linkOutcome awd order ret2,
          animalPhaseRan := true, attachPhaseRan := true }
      else
        { response := ret2, animalPhaseRan := true, attachPhaseRan := false }

/-- Closed form of `verifyAssignment`: the errors come only from the
device-overlap test, the warnings are the device-history warning followed
by the multi-device prompt warning. -/
theorem verifyAssignment_eq (row : Row) (now : Int)
    (deviceLinks animalLinks : List AssignmentInterval) :
    verifyAssignment row now deviceLinks animalLinks =
      { errors :=
          if deviceLinks.any (overlapsCandidate row now) then
            [("device_id", deviceAssignedErrorDesc)]
          else [],
        warnings :=
          (if deviceLinks.any (overlapsCandidate row now) then []
           else if decide (deviceLinks.length > 0) then
             [previousDeploymentsWarning row]
           else []) ++
          (if truthyJs (fieldValJs row "critter_id") &&
              animalLinks.any (overlapsCandidate row now) then
            [multipleDevicesWarning]
          else []) } := by
  unfold verifyAssignment
  by_cases hdev : deviceLinks.any (overlapsCandidate row now) = true <;>
    by_cases hcrit : truthyJs (fieldValJs row "critter_id") = true <;>
      by_cases hanim : animalLinks.any (overlapsCandidate row now) = true <;>
        by_cases hlen : 0 < deviceLinks.length <;>
          simp [hdev, hcrit, hanim, hlen]

/-- The error map produced by `checkAnimalDeviceErrorsAndWarns` does not
depend on the animal's attachment history nor on the `is_new_animal`
answer: those only contribute warnings. -/
theorem checkAnimalDeviceErrors_indep (rowres : ParsedXLSXRowResult) (now : Int)
    (deviceLinks al al' : List AssignmentInterval) (b b' : Bool) :
    (checkAnimalDeviceErrorsAndWarns rowres now deviceLinks al b).errors =
      (checkAnimalDeviceErrorsAndWarns rowres now deviceLinks al' b').errors := by
  unfold checkAnimalDeviceErrorsAndWarns
  by_cases hreq : requireFields rowres.row = true
  · rw [verifyAssignment_eq rowres.row now deviceLinks al,
      verifyAssignment_eq rowres.row now deviceLinks al']
    cases b <;> cases b' <;> simp [hreq]
  · have : requireFields rowres.row = false := by
      cases h : requireFields rowres.row
      · rfl
      · exact absurd h hreq
    simp [this]

/-- `find?` returns the unique element satisfying the predicate, wherever
it sits in the list. -/
theorem find?_eq_of_unique {α : Type} (p : α → Bool) (l : List α) (a : α)
    (ha : a ∈ l) (hp : p a = true)
    (huniq : ∀ x ∈ l, p x = true → x = a) :
    l.find? p = some a := by
  induction l with
  | nil => cases ha
  | cons h t ih =>
    by_cases hph : p h = true
    · have he : h = a := huniq h (List.mem_cons_self h t) hph
      subst he
      simp [List.find?_cons_of_pos _ hph]
    · have hne : h ≠ a := fun he => hph (he ▸ hp)
      have hat : a ∈ t := by
        rcases List.mem_cons.mp ha with h1 | h1
        · exact absurd h1.symm hne
        · exact h1
      rw [List.find?_cons_of_neg _ (by simpa using hph)]
      exact ih hat (fun x hx hpx => huniq x (List.mem_cons_of_mem _ hx) hpx)

/-- A list permuting a two-element list is one of its two arrangements. -/
theorem perm_pair_cases {α : Type} {x y : α} {l : List α}
    (h : l.Perm [x, y]) : l = [x, y] ∨ l = [y, x] := by
  have hlen : l.length = 2 := h.length_eq
  obtain ⟨a, b, rfl⟩ : ∃ a b, l = [a, b] := by
    match l, hlen with
    | [a, b], _ => exact ⟨a, b, rfl⟩
  have ha : a ∈ [x, y] := h.mem_iff.mp (by simp)
  have ha' : a = x ∨ a = y := by simpa using ha
  rcases ha' with rfl | rfl
  · have hb : [b].Perm [y] := h.cons_inv
    have : b = y := by simpa using List.perm_singleton.mp hb
    subst this
    exact Or.inl rfl
  · have h2 : ([a, b].Perm [a, x]) := h.trans (List.Perm.swap a x [])
    have hb : [b].Perm [x] := h2.cons_inv
    have : b = x := by simpa using List.perm_singleton.mp hb
    subst this
    exact Or.inr rfl

/-- An error stored by the cross-row checks survives the
`{...genericErrors, ...crossRowErrors}` spread merge, whether or not the
generic pass already used the same key. -/
theorem mem_spreadMerge_single (a : CellErrors) (k : String)
    (d : CellErrorDescriptor) : (k, d) ∈ spreadMerge a [(k, d)] := by
  unfold spreadMerge
  rw [List.mem_append]
  by_cases h : a.any (fun kv => kv.1 == k) = true
  · left
    rw [List.any_eq_true] at h
    obtain ⟨kv, hkv, hk⟩ := h
    refine List.mem_map.mpr ⟨kv, hkv, ?_⟩
    have hkeq : kv.1 = k := by simpa using hk
    simp [List.find?, hkeq]
  · right
    have h' : a.any (fun kv => kv.1 == k) = false := by
      cases ha : a.any (fun kv => kv.1 == k)
      · rfl
      · exact absurd ha h
    refine List.mem_filter.mpr ⟨by simp, ?_⟩
    simp [h']

/-- Every successful `processRow` result sets `success` to emptiness of the
merged error map (line `rowObj.success = Object.keys(rowObj.errors).length
== 0`). -/
theorem processRow_ok_shape (codeFields : List String)
    (codeDomain : String → List String) (columnTypes : String → Option ColType)
    (parseDate : String → Option Int) (now : Int)
    (deviceLinks animalLinks : List AssignmentInterval) (is_new : Bool)
    (isDeviceSheet : Bool) (rowWithHeader : Row) (r : ParsedXLSXRowResult)
    (h : processRow codeFields codeDomain columnTypes parseDate now deviceLinks
      animalLinks is_new isDeviceSheet rowWithHeader = Except.ok r) :
    r.success = r.errors.isEmpty := by
  simp only [processRow] at h
  split at h
  · cases h
  · split at h
    · cases h
      rfl
    · cases h
      rfl

/-- The merged error map of a successful `processRow` does not depend on
the animal-history or uniqueness oracles (they contribute warnings only).
-/
theorem processRow_errors_indep (codeFields : List String)
    (codeDomain : String → List String) (columnTypes : String → Option ColType)
    (parseDate : String → Option Int) (now : Int)
    (deviceLinks : List AssignmentInterval)
    (al al' : List AssignmentInterval) (inew inew' : Bool)
    (isDeviceSheet : Bool) (rowWithHeader : Row) (r r' : ParsedXLSXRowResult)
    (h : processRow codeFields codeDomain columnTypes parseDate now deviceLinks
      al inew isDeviceSheet rowWithHeader = Except.ok r)
    (h' : processRow codeFields codeDomain columnTypes parseDate now deviceLinks
      al' inew' isDeviceSheet rowWithHeader = Except.ok r') :
    r.errors = r'.errors := by
  simp only [processRow] at h h'
  cases hn : normalizeDates parseDate columnTypes (removeEmptyProps rowWithHeader) with
  | error e =>
    rw [hn] at h
    cases h
  | ok nrow =>
    rw [hn] at h h'
    cases isDeviceSheet
    · simp only [Bool.false_eq_true, if_false] at h h'
      cases h
      cases h'
      rfl
    · simp only [if_true] at h h'
      cases h
      cases h'
      exact congrArg (spreadMerge _)
        (checkAnimalDeviceErrors_indep _ now deviceLinks al al' inew inew')

/-- C5: for every parsed row result produced by the validator, the success
flag is true exactly when the row's error mapping is empty, and the
warning-only oracles (animal attachment history, `is_new_animal`) never
change the success flag. -/
theorem parsed_row_success_iff_errors_empty (codeFields : List String)
    (codeDomain : String → List String) (columnTypes : String → Option ColType)
    (parseDate : String → Option Int) (now : Int)
    (deviceLinks animalLinks : List AssignmentInterval) (is_new : Bool)
    (isDeviceSheet : Bool) (rowWithHeader : Row) (r : ParsedXLSXRowResult)
    (h : processRow codeFields codeDomain columnTypes parseDate now deviceLinks
      animalLinks is_new isDeviceSheet rowWithHeader = Except.ok r) :
    (r.success = true ↔ r.errors = []) ∧
    (∀ animalLinks' is_new' r',
      processRow codeFields codeDomain columnTypes parseDate now deviceLinks
        animalLinks' is_new' isDeviceSheet rowWithHeader = Except.ok r' →
      r'.success = r.success) := by
  constructor
  · rw [processRow_ok_shape codeFields codeDomain columnTypes parseDate now
      deviceLinks animalLinks is_new isDeviceSheet rowWithHeader r h]
    exact List.isEmpty_iff
  · intro animalLinks' is_new' r' h'
    rw [processRow_ok_shape codeFields codeDomain columnTypes parseDate now
        deviceLinks animalLinks is_new isDeviceSheet rowWithHeader r h,
      processRow_ok_shape codeFields codeDomain columnTypes parseDate now
        deviceLinks animalLinks' is_new' isDeviceSheet rowWithHeader r' h',
      processRow_errors_indep codeFields codeDomain columnTypes parseDate now
        deviceLinks animalLinks' animalLinks is_new' is_new isDeviceSheet
        rowWithHeader r' r h' h]

/-- Concrete telemetry-style row used to witness C5. -/
def c5Row : Row := [("region", CellVal.str "Peace")]

/-- The row result `processRow` produces for `c5Row` with trivial oracles. -/
def c5Result : ParsedXLSXRowResult :=
  { row := c5Row, errors := [], warnings := [], success := true }

/-- Witness for C5 at a concrete input. -/
theorem parsed_row_success_iff_errors_empty_witness :
    processRow [] (fun _ => []) (fun _ => none) (fun _ => none) 0 [] [] false
      false c5Row = Except.ok c5Result ∧
    (c5Result.success = true ↔ c5Result.errors = []) :=
  ⟨rfl,
    (parsed_row_success_iff_errors_empty [] (fun _ => []) (fun _ => none)
      (fun _ => none) 0 [] [] false false c5Row c5Result rfl).1⟩

/-- C3: when a device-metadata row lacks the species field or the device
identifier, the cross-row validator returns exactly one error, keyed
`missing_data`, and performs none of the downstream checks: the result is
a constant, independent of the device-history, animal-history and
uniqueness oracles. -/
theorem missing_required_fields_single_error (rowres : ParsedXLSXRowResult)
    (now : Int) (deviceLinks animalLinks : List AssignmentInterval)
    (is_new : Bool) (h : requireFields rowres.row = false) :
    checkAnimalDeviceErrorsAndWarns rowres now deviceLinks animalLinks is_new =
      { errors := [("missing_data", missingDataErrorDesc)], warnings := [] } := by
  simp [checkAnimalDeviceErrorsAndWarns, h]

/-- Witness for C3: a row missing both `device_id` and `species`. -/
theorem missing_required_fields_single_error_witness :
    requireFields [("animal_id", CellVal.str "A-1")] = false ∧
    checkAnimalDeviceErrorsAndWarns
        { row := [("animal_id", CellVal.str "A-1")], errors := [],
          warnings := [], success := false }
        0 [{ attachment_start := 0, attachment_end := none }]
        [{ attachment_start := 0, attachment_end := none }] true =
      { errors := [("missing_data", missingDataErrorDesc)], warnings := [] } :=
  ⟨by decide,
    missing_required_fields_single_error
      { row := [("animal_id", CellVal.str "A-1")], errors := [],
        warnings := [], success := false }
      0 [{ attachment_start := 0, attachment_end := none }]
      [{ attachment_start := 0, attachment_end := none }] true (by decide)⟩

/-- C9: a code-field cell whose value is not in the fetched code domain
for that field gets an error recorded on that field, whose `valid_values`
is the full domain list. -/
theorem code_field_invalid_value_error (row : Row) (codeFields : List String)
    (codeDomain : String → List String) (columnTypes : String → Option ColType)
    (k : String) (v : CellVal) (hmem : (k, v) ∈ row)
    (hcode : k ∈ codeFields) (hbad : cellInStrings v (codeDomain k) = false) :
    (k, codeFieldErrorDesc (codeDomain k)) ∈
      checkGenericErrors row codeFields codeDomain columnTypes := by
  unfold checkGenericErrors
  refine List.mem_filterMap.mpr ⟨(k, v), hmem, ?_⟩
  have hc : codeFields.contains k = true := by simpa using hcode
  simp [checkGenericErrorForCell, hc, hbad]
  intro hk
  exact absurd hcode hk

/-- The cached species domain used to witness C9. -/
def speciesDomain : String → List String := fun _ => ["Moose", "Elk"]

/-- Witness for C9: `species="Caribou"` against a domain without it. -/
theorem code_field_invalid_value_error_witness :
    ("species", CellVal.str "Caribou") ∈
      ([("species", CellVal.str "Caribou")] : Row) ∧
    "species" ∈ ["species"] ∧
    cellInStrings (CellVal.str "Caribou") (speciesDomain "species") = false ∧
    ("species", codeFieldErrorDesc (speciesDomain "species")) ∈
      checkGenericErrors [("species", CellVal.str "Caribou")] ["species"]
        speciesDomain (fun _ => none) :=
  ⟨by decide, by decide, by decide,
    code_field_invalid_value_error [("species", CellVal.str "Caribou")]
      ["species"] speciesDomain (fun _ => none) "species"
      (CellVal.str "Caribou") (by decide) (by decide) (by decide)⟩

/-- C1: the bulk-upsert orchestrator stops at the first failing phase. Any
DEVICE-phase row error makes it return exactly the DEVICE result, with
neither the ANIMAL upsert nor any attachment dispatched; a DEVICE success
followed by any ANIMAL-phase row error makes it return exactly the ANIMAL
result, with the attachment phase skipped. -/
theorem handleBulkMetadata_phase_gating (rows : List Row)
    (collarResults : CollarPhaseResult) (animalResults : AnimalPhaseResult)
    (linkOutcome : Nat → LinkOutcome) (order : List Nat) :
    (collarResults.errors ≠ [] →
      handleBulkMetadata rows collarResults animalResults linkOutcome order =
        { response := collarPhaseToBulk collarResults,
          animalPhaseRan := false, attachPhaseRan := false }) ∧
    (collarResults.errors = [] → animalResults.errors ≠ [] →
      handleBulkMetadata rows collarResults animalResults linkOutcome order =
        { response := animalPhaseToBulk animalResults,
          animalPhaseRan := true, attachPhaseRan := false }) := by
  constructor
  · intro h
    have hlen : collarResults.errors.length ≠ 0 := by
      simpa [List.length_eq_zero] using h
    unfold handleBulkMetadata
    simp [hlen]
  · intro h1 h2
    have hlen2 : animalResults.errors.length ≠ 0 := by
      simpa [List.length_eq_zero] using h2
    unfold handleBulkMetadata
    simp [h1, hlen2]

/-- A DEVICE-phase failure used to witness C1. -/
def failedCollarPhase : CollarPhaseResult :=
  { errors := [{ rownum := 2, row := "5,Caribou", error := "upsert failed" }],
    results := [] }

/-- Witness for C1: a failing DEVICE phase short-circuits the run. -/
theorem handleBulkMetadata_phase_gating_witness :
    failedCollarPhase.errors ≠ [] ∧
    handleBulkMetadata [[("device_id", CellVal.num 5)]] failedCollarPhase
        { errors := [], results := [] } (fun _ => LinkOutcome.fulfilled) [0] =
      { response := collarPhaseToBulk failedCollarPhase,
        animalPhaseRan := false, attachPhaseRan := false } :=
  ⟨by decide,
    (handleBulkMetadata_phase_gating [[("device_id", CellVal.num 5)]]
      failedCollarPhase { errors := [], results := [] }
      (fun _ => LinkOutcome.fulfilled) [0]).1 (by decide)⟩

/-- C8: when the row references an existing animal (`critter_id` truthy)
whose attachment history overlaps the candidate interval, the assignment
check pushes the multi-device warning with `prompt = true`, and the animal
history never contributes to the error map, whatever it contains. -/
theorem animal_overlap_prompt_warning_only (row : Row) (now : Int)
    (deviceLinks animalLinks : List AssignmentInterval)
    (hcrit : truthyJs (fieldValJs row "critter_id") = true) :
    (animalLinks.any (overlapsCandidate row now) = true →
      multipleDevicesWarning ∈
        (verifyAssignment row now deviceLinks animalLinks).warnings ∧
      multipleDevicesWarning.prompt = true) ∧
    (∀ animalLinks',
      (verifyAssignment row now deviceLinks animalLinks).errors =
        (verifyAssignment row now deviceLinks animalLinks').errors) := by
  constructor
  · intro hanim
    rw [verifyAssignment_eq]
    refine ⟨?_, rfl⟩
    simp [hcrit, hanim]
  · intro al'
    rw [verifyAssignment_eq, verifyAssignment_eq]

/-- The multi-collared row used to witness C8. -/
def multiCollarRow : Row :=
  [("species", CellVal.str "Caribou"), ("device_id", CellVal.num 1),
   ("critter_id", CellVal.str "c-1"), ("capture_date", CellVal.date 50)]

/-- Witness for C8: an animal history interval overlapping the candidate
yields the prompt warning. -/
theorem animal_overlap_prompt_warning_only_witness :
    truthyJs (fieldValJs multiCollarRow "critter_id") = true ∧
    ([{ attachment_start := 0, attachment_end := some 100 }] :
        List AssignmentInterval).any (overlapsCandidate multiCollarRow 0) = true ∧
    (multipleDevicesWarning ∈
      (verifyAssignment multiCollarRow 0 []
        [{ attachment_start := 0, attachment_end := some 100 }]).warnings ∧
    multipleDevicesWarning.prompt = true) :=
  ⟨by decide, by decide,
    (animal_overlap_prompt_warning_only multiCollarRow 0 []
      [{ attachment_start := 0, attachment_end := some 100 }]
      (by decide)).1 (by decide)⟩

/-- The row result `processRow` produces on the Device Metadata sheet for
a row that is already clean and normalized. -/
def deviceSheetRowResult (codeFields : List String)
    (codeDomain : String → List String) (columnTypes : String → Option ColType)
    (now : Int) (deviceLinks animalLinks : List AssignmentInterval)
    (is_new : Bool) (row : Row) : ParsedXLSXRowResult :=
  { row := row,
    errors := spreadMerge
      (checkGenericErrors row codeFields codeDomain columnTypes)
      (checkAnimalDeviceErrorsAndWarns
        { row := row,
          errors := checkGenericErrors row codeFields codeDomain columnTypes,
          warnings := [], success := false }
        now deviceLinks animalLinks is_new).errors,
    warnings := (checkAnimalDeviceErrorsAndWarns
        { row := row,
          errors := checkGenericErrors row codeFields codeDomain columnTypes,
          warnings := [], success := false }
        now deviceLinks animalLinks is_new).warnings,
    success := (spreadMerge
      (checkGenericErrors row codeFields codeDomain columnTypes)
      (checkAnimalDeviceErrorsAndWarns
        { row := row,
          errors := checkGenericErrors row codeFields codeDomain columnTypes,
          warnings := [], success := false }
        now deviceLinks animalLinks is_new).errors).isEmpty }

/-- `processRow` on the Device Metadata sheet for a clean, normalized row
computes `deviceSheetRowResult`. -/
theorem processRow_deviceSheet_ok (codeFields : List String)
    (codeDomain : String → List String) (columnTypes : String → Option ColType)
    (parseDate : String → Option Int) (now : Int)
    (deviceLinks animalLinks : List AssignmentInterval) (is_new : Bool)
    (row : Row)
    (hclean : removeEmptyProps row = row)
    (hnorm : normalizeDates parseDate columnTypes row = Except.ok row) :
    processRow codeFields codeDomain columnTypes parseDate now deviceLinks
      animalLinks is_new true row =
      Except.ok (deviceSheetRowResult codeFields codeDomain columnTypes now
        deviceLinks animalLinks is_new row) := by
  simp only [processRow, hclean, hnorm]
  rfl

/-- C4: for a device-metadata row passing the required-field check, a
device-history interval overlapping the candidate interval
`[capture_date ?? now, retrieval_date ?? mortality_date ?? open)` yields a
hard error on `device_id` and a failed (blocking) row result; with no
overlap but non-empty history, the assignment check yields no error and
only the non-prompt informational deployments warning. -/
theorem device_overlap_hard_error (codeFields : List String)
    (codeDomain : String → List String) (columnTypes : String → Option ColType)
    (parseDate : String → Option Int) (now : Int)
    (deviceLinks animalLinks : List AssignmentInterval) (is_new : Bool)
    (row : Row)
    (hclean : removeEmptyProps row = row)
    (hnorm : normalizeDates parseDate columnTypes row = Except.ok row)
    (hreq : requireFields row = true) :
    (deviceLinks.any (overlapsCandidate row now) = true →
      ∃ r, processRow codeFields codeDomain columnTypes parseDate now
          deviceLinks animalLinks is_new true row = Except.ok r ∧
        ("device_id", deviceAssignedErrorDesc) ∈ r.errors ∧
        r.success = false) ∧
    (deviceLinks.any (overlapsCandidate row now) = false → deviceLinks ≠ [] →
      (checkAnimalDeviceErrorsAndWarns
          { row := row, errors := [], warnings := [], success := false }
          now deviceLinks animalLinks is_new).errors = [] ∧
      previousDeploymentsWarning row ∈
        (checkAnimalDeviceErrorsAndWarns
          { row := row, errors := [], warnings := [], success := false }
          now deviceLinks animalLinks is_new).warnings ∧
      (previousDeploymentsWarning row).prompt = false) := by
  constructor
  · intro hov
    have hew : ∀ rowres : ParsedXLSXRowResult, rowres.row = row →
        (checkAnimalDeviceErrorsAndWarns rowres now deviceLinks animalLinks
          is_new).errors = [("device_id", deviceAssignedErrorDesc)] := by
      intro rowres hr
      unfold checkAnimalDeviceErrorsAndWarns
      rw [hr, hreq]
      rw [verifyAssignment_eq]
      cases is_new <;> simp [hov]
    have herr : (checkAnimalDeviceErrorsAndWarns
        (ParsedXLSXRowResult.mk row
          (checkGenericErrors row codeFields codeDomain columnTypes) [] false)
        now deviceLinks animalLinks is_new).errors =
        [("device_id", deviceAssignedErrorDesc)] :=
      hew (ParsedXLSXRowResult.mk row
        (checkGenericErrors row codeFields codeDomain columnTypes) [] false) rfl
    refine ⟨deviceSheetRowResult codeFields codeDomain columnTypes now
        deviceLinks animalLinks is_new row,
      processRow_deviceSheet_ok codeFields codeDomain columnTypes parseDate
        now deviceLinks animalLinks is_new row hclean hnorm, ?_, ?_⟩
    · simp only [deviceSheetRowResult]
      rw [herr]
      exact mem_spreadMerge_single _ _ _
    · simp only [deviceSheetRowResult]
      rw [herr]
      have hmem := mem_spreadMerge_single
        (checkGenericErrors row codeFields codeDomain columnTypes)
        "device_id" deviceAssignedErrorDesc
      cases hsm : spreadMerge
          (checkGenericErrors row codeFields codeDomain columnTypes)
          [("device_id", deviceAssignedErrorDesc)] with
      | nil => rw [hsm] at hmem; cases hmem
      | cons x xs => rfl
  · intro hov hne
    have hlen : 0 < deviceLinks.length := List.length_pos.mpr hne
    simp only [checkAnimalDeviceErrorsAndWarns]
    rw [hreq, verifyAssignment_eq]
    cases is_new <;> simp [hov, hlen] <;> rfl

/-- The overlapping-deployment row used to witness C4 (spec scenario B). -/
def overlapRow : Row :=
  [("species", CellVal.str "Caribou"), ("device_id", CellVal.num 1),
   ("capture_date", CellVal.date 60)]

/-- The column-type oracle used to witness C4. -/
def overlapColumnTypes : String → Option ColType :=
  fun k => if k == "capture_date" then some ColType.date else none

/-- Witness for C4: history `[0, 151)` against candidate `[60, open)`. -/
theorem device_overlap_hard_error_witness :
    removeEmptyProps overlapRow = overlapRow ∧
    normalizeDates (fun _ => none) overlapColumnTypes overlapRow =
      Except.ok overlapRow ∧
    requireFields overlapRow = true ∧
    ([{ attachment_start := 0, attachment_end := some 151 }] :
      List AssignmentInterval).any (overlapsCandidate overlapRow 0) = true ∧
    ∃ r, processRow [] (fun _ => []) overlapColumnTypes (fun _ => none) 0
        [{ attachment_start := 0, attachment_end := some 151 }] [] false true
        overlapRow = Except.ok r ∧
      ("device_id", deviceAssignedErrorDesc) ∈ r.errors ∧
      r.success = false :=
  ⟨by decide, by rfl, by decide, by decide,
    (device_overlap_hard_error [] (fun _ => []) overlapColumnTypes
      (fun _ => none) 0 [{ attachment_start := 0, attachment_end := some 151 }]
      [] false overlapRow (by decide) (by rfl) (by decide)).1 (by decide)⟩

/-- C7: in the attachment phase a row is matched to its upserted animal
and collar records by key, not by position: as long as exactly one
upserted record carries the row's key, any reordering (or deduplicating
sublist arrangement) of the upsert results yields the same match. -/
theorem attachment_matches_by_natural_key
    (critterResults critterResults' : List Animal)
    (collarResults collarResults' : List Collar) (row : Row)
    (cr : Animal) (co : Collar)
    (hpc : critterResults.Perm critterResults')
    (hcr : cr ∈ critterResults)
    (hcrk : jsStrictEq cr.animal_id (fieldValJs row "animal_id") = true)
    (hcru : ∀ x ∈ critterResults,
      jsStrictEq x.animal_id (fieldValJs row "animal_id") = true → x = cr)
    (hpd : collarResults.Perm collarResults')
    (hco : co ∈ collarResults)
    (hcok : (cellToString co.device_id ==
      displayJs (fieldValJs row "device_id")) = true)
    (hcou : ∀ x ∈ collarResults,
      (cellToString x.device_id ==
        displayJs (fieldValJs row "device_id")) = true → x = co) :
    findSavedCritter critterResults' row = some cr ∧
    findMatchingCollar collarResults' row = some co := by
  constructor
  · unfold findSavedCritter
    exact find?_eq_of_unique _ _ _ (hpc.mem_iff.mp hcr) hcrk
      (fun x hx hpx => hcru x (hpc.mem_iff.mpr hx) hpx)
  · unfold findMatchingCollar
    exact find?_eq_of_unique _ _ _ (hpd.mem_iff.mp hco) hcok
      (fun x hx hpx => hcou x (hpd.mem_iff.mpr hx) hpx)

/-- Upserted animals used to witness C7. -/
def wAnimal1 : Animal :=
  { critter_id := "c-1", animal_id := JsVal.val (CellVal.str "A"),
    wlh_id := JsVal.undefined, capture_date := none, mortality_date := none }

/-- Second upserted animal used to witness C7. -/
def wAnimal2 : Animal :=
  { critter_id := "c-2", animal_id := JsVal.val (CellVal.str "B"),
    wlh_id := JsVal.undefined, capture_date := none, mortality_date := none }

/-- Upserted collars used to witness C7. -/
def wCollar1 : Collar := { collar_id := "k-1", device_id := CellVal.num 1 }

/-- Second upserted collar used to witness C7. -/
def wCollar2 : Collar := { collar_id := "k-2", device_id := CellVal.num 2 }

/-- The batch row used to witness C7. -/
def wRow : Row := [("animal_id", CellVal.str "B"), ("device_id", CellVal.num 2)]

/-- Witness for C7: the same matches are found after reordering the upsert
results. -/
theorem attachment_matches_by_natural_key_witness :
    [wAnimal1, wAnimal2].Perm [wAnimal2, wAnimal1] ∧
    [wCollar1, wCollar2].Perm [wCollar2, wCollar1] ∧
    (findSavedCritter [wAnimal2, wAnimal1] wRow = some wAnimal2 ∧
     findMatchingCollar [wCollar2, wCollar1] wRow = some wCollar2) :=
  ⟨List.Perm.swap wAnimal2 wAnimal1 [], List.Perm.swap wCollar2 wCollar1 [],
    attachment_matches_by_natural_key [wAnimal1, wAnimal2] [wAnimal2, wAnimal1]
      [wCollar1, wCollar2] [wCollar2, wCollar1] wRow wAnimal2 wCollar2
      (List.Perm.swap wAnimal2 wAnimal1 []) (by decide) (by decide) (by decide)
      (List.Perm.swap wCollar2 wCollar1 []) (by decide) (by decide) (by decide)⟩

/-- C2: when both phase-3 rows reach the link query and row `a` rejects
while row `b` fulfills, the batch response gains exactly `a`'s error entry
and exactly `b`'s success entry, for every completion order of the two
concurrent tasks; the sibling is neither aborted nor rolled back. -/
theorem attachment_failure_row_isolated (critterResults : List Animal)
    (collarResults : List Collar) (linkOutcome : Nat → LinkOutcome)
    (a b : CritterWithDevice) (order : List Nat) (resp : IBulkResponse)
    (reason : String)
    (horder : order.Perm (List.range 2))
    (hA : taskStep critterResults collarResults linkOutcome a =
      TaskStep.link (LinkOutcome.rejected reason))
    (hB : taskStep critterResults collarResults linkOutcome b =
      TaskStep.link LinkOutcome.fulfilled) :
    handleCollarCritterLink critterResults collarResults linkOutcome
        [a, b] order resp =
      { errors := resp.errors ++ [rejectedError a reason],
        results := resp.results ++ [attachSuccessEntry b] } := by
  have hmid : midErrors critterResults collarResults linkOutcome [a, b]
      order = [] := by
    unfold midErrors
    rw [List.filterMap_eq_nil_iff]
    intro i hi
    have hi2 : i ∈ List.range 2 := horder.mem_iff.mp hi
    have hi3 : i < 2 := List.mem_range.mp hi2
    have : i = 0 ∨ i = 1 := by omega
    rcases this with rfl | rfl
    · simp [hA]
    · simp [hB]
  unfold handleCollarCritterLink
  rw [hmid]
  unfold postSettle
  simp [settledOutcome, hA, hB]

/-- The upserted animal both C2-witness rows refer to. -/
def c2Animal : Animal :=
  { critter_id := "c-9", animal_id := JsVal.val (CellVal.str "A"),
    wlh_id := JsVal.undefined, capture_date := none, mortality_date := none }

/-- The upserted collar both C2-witness rows refer to. -/
def c2Collar : Collar := { collar_id := "k-9", device_id := CellVal.num 7 }

/-- Phase-3 row A of the C2 witness (its link call rejects). -/
def c2RowA : CritterWithDevice :=
  { rowIndex := 0,
    row := [("animal_id", CellVal.str "A"), ("device_id", CellVal.num 7)] }

/-- Phase-3 row B of the C2 witness (its link call fulfills). -/
def c2RowB : CritterWithDevice :=
  { rowIndex := 1,
    row := [("animal_id", CellVal.str "A"), ("device_id", CellVal.num 7)] }

/-- The link-call oracle of the C2 witness: row 0 rejects, row 1 fulfills.
-/
def c2Outcome : Nat → LinkOutcome :=
  fun i => if i == 0 then LinkOutcome.rejected "connection reset" else
    LinkOutcome.fulfilled

/-- Witness for C2, run with the reversed completion order `[1, 0]`. -/
theorem attachment_failure_row_isolated_witness :
    ([1, 0] : List Nat).Perm (List.range 2) ∧
    handleCollarCritterLink [c2Animal] [c2Collar] c2Outcome [c2RowA, c2RowB]
        [1, 0] { errors := [], results := [] } =
      { errors := [rejectedError c2RowA "connection reset"],
        results := [attachSuccessEntry c2RowB] } :=
  ⟨List.Perm.swap 0 1 [],
    attachment_failure_row_isolated [c2Animal] [c2Collar] c2Outcome c2RowA
      c2RowB [1, 0] { errors := [], results := [] } "connection reset"
      (List.Perm.swap 0 1 []) (by decide) (by decide)⟩

/-- C10: every fulfilled phase-3 task pushes a `{sucess: ...}` entry, even
when no link was performed: a row matching no upserted animal is reported
as a successful attachment, and a row matching an animal but no collar is
reported as an error and as a success for the same row. -/
theorem fulfilled_task_always_pushes_success (critterResults : List Animal)
    (collarResults : List Collar) (linkOutcome : Nat → LinkOutcome)
    (c1 c2 : CritterWithDevice) (order : List Nat) (resp : IBulkResponse)
    (cr : Animal)
    (horder : order.Perm (List.range 2))
    (h1 : findSavedCritter critterResults c1.row = none)
    (h2a : findSavedCritter critterResults c2.row = some cr)
    (h2b : findMatchingCollar collarResults c2.row = none) :
    handleCollarCritterLink critterResults collarResults linkOutcome
        [c1, c2] order resp =
      { errors := resp.errors ++ [noCollarError c2],
        results := resp.results ++
          [attachSuccessEntry c1, attachSuccessEntry c2] } := by
  have ht1 : taskStep critterResults collarResults linkOutcome c1 =
      TaskStep.noCritter := by
    unfold taskStep
    rw [h1]
  have ht2 : taskStep critterResults collarResults linkOutcome c2 =
      TaskStep.noCollar := by
    unfold taskStep
    rw [h2a, h2b]
  have hr2 : List.range 2 = [0, 1] := rfl
  rw [hr2] at horder
  have hmid : midErrors critterResults collarResults linkOutcome [c1, c2]
      order = [noCollarError c2] := by
    rcases perm_pair_cases horder with h | h <;> subst h <;>
      simp [midErrors, ht1, ht2]
  unfold handleCollarCritterLink
  rw [hmid]
  unfold postSettle
  simp [settledOutcome, ht1, ht2]

/-- The phase-3 row of the C10 witness whose `animal_id` matches no
upserted animal. -/
def c10RowNoAnimal : CritterWithDevice :=
  { rowIndex := 0,
    row := [("animal_id", CellVal.str "ZZ"), ("device_id", CellVal.num 7)] }

/-- The phase-3 row of the C10 witness whose `device_id` matches no
upserted collar. -/
def c10RowNoCollar : CritterWithDevice :=
  { rowIndex := 1,
    row := [("animal_id", CellVal.str "A"), ("device_id", CellVal.num 99)] }

/-- Witness for C10: the no-animal row yields only a success entry; the
no-collar row yields an error entry and a success entry. -/
theorem fulfilled_task_always_pushes_success_witness :
    ([0, 1] : List Nat).Perm (List.range 2) ∧
    findSavedCritter [c2Animal] c10RowNoAnimal.row = none ∧
    findMatchingCollar [c2Collar] c10RowNoCollar.row = none ∧
    handleCollarCritterLink [c2Animal] [c2Collar] (fun _ => LinkOutcome.fulfilled)
        [c10RowNoAnimal, c10RowNoCollar] [0, 1] { errors := [], results := [] } =
      { errors := [noCollarError c10RowNoCollar],
        results := [attachSuccessEntry c10RowNoAnimal,
          attachSuccessEntry c10RowNoCollar] } :=
  ⟨List.Perm.refl [0, 1], by decide, by decide,
    fulfilled_task_always_pushes_success [c2Animal] [c2Collar]
      (fun _ => LinkOutcome.fulfilled) c10RowNoAnimal c10RowNoCollar [0, 1]
      { errors := [], results := [] } c2Animal (List.Perm.refl [0, 1])
      (by decide) (by decide) (by decide)⟩

/-- Column-type oracle of the C6 scenario: `capture_date` is the only
date-typed column. -/
def badDateColumnTypes : String → Option ColType :=
  fun k => if k == "capture_date" then some ColType.date else none

/-- A fully valid device-metadata row of the C6 scenario. -/
def validMetadataRow : Row :=
  [("species", CellVal.str "Caribou"), ("device_id", CellVal.num 1)]

/-- A row whose `capture_date` cell holds a non-date string; JavaScript
date parsing yields an Invalid Date for it. -/
def malformedDateRow : Row := [("capture_date", CellVal.str "banana")]

/-- The uploaded Device Metadata sheet of the C6 scenario: one valid row
followed by one row with a malformed date cell. -/
def badDateSheet : SheetInput :=
  { headers := ["species", "device_id", "capture_date"],
    isDeviceSheet := true,
    rows := [validMetadataRow, malformedDateRow] }

/-- C6 fails on the code: the generic validator records the date-format
error for the malformed cell, but the date-normalization loop then calls
`toISOString()` on the same Invalid Date, the thrown RangeError is caught
by `parseXlsx`'s try/catch, and the returned sheet results are empty —
both rows of the sheet, including the fully valid first row, are missing
from the validator output instead of appearing with their errors
recorded. -/
theorem malformed_date_cell_drops_all_rows :
    checkGenericErrors (removeEmptyProps malformedDateRow) [] (fun _ => [])
      badDateColumnTypes = [("capture_date", dateFieldErrorDesc)] ∧
    badDateSheet.rows.length = 2 ∧
    parseXlsx [] (fun _ => []) badDateColumnTypes (fun _ => none) 0
      (fun _ => []) (fun _ => []) (fun _ => false) [badDateSheet] = [] :=
  ⟨rfl, rfl, rfl⟩
